import Mathlib

/-!
Shallow embedding of the two source files of this repository:
`src/aruco_py/scripts/test_optimizations.py` (an ArUco detection benchmark)
and `install/aruco_py/share/aruco_py/launch/aruco_optimized.launch.py`
(a ROS 2 launch description).

External OpenCV entry points (CLAHE, bilateral filter, Otsu thresholding and
the ArUco detector itself) are opaque library calls; they are modelled as
function parameters gathered in `CVEnv`. Image objects carry an address
together with their pixel payload so that object identity (copies versus
aliases of numpy arrays) is expressible. Wall-clock time is modelled by a
`Clock` that advances by an externally given duration at each detection call;
all other statements take zero time. The Python `float` quantities of the
script are modelled as exact rationals.
-/

namespace Aruco

/-- A preset configuration: the value type of the global `configs` dictionary
of `test_optimizations.py`. -/
structure Config where
  use_clahe : Bool
  use_bilateral : Bool
  use_multi_threshold : Bool
  adaptive_thresh_constant : Int
  corner_refinement_max_iterations : Nat
  deriving DecidableEq

/-- The global `configs` dictionary: three presets looked up by name. A key
that is not present maps to `none` (a Python `KeyError`). -/
def configs : String → Option Config
  | "original" => some ⟨false, false, false, 7, 30⟩
  | "optimized" => some ⟨true, false, true, 5, 60⟩
  | "maximum" => some ⟨true, true, true, 5, 80⟩
  | _ => none

/-- Corner refinement method constants of the vision library. -/
inductive CornerRefineMethod where
  | noRefine
  | contour
  | subpix
  | apriltag
  deriving DecidableEq

/-- The fields of the library's detector-parameter object that
`setup_detector` assigns. -/
structure DetectorParameters where
  adaptiveThreshConstant : ℚ
  cornerRefinementMaxIterations : Nat
  cornerRefinementMethod : CornerRefineMethod
  minMarkerPerimeterRate : ℚ
  maxMarkerPerimeterRate : ℚ
  polygonalApproxAccuracyRate : ℚ
  minCornerDistanceRate : ℚ
  cornerRefinementWinSize : Nat
  cornerRefinementMinAccuracy : ℚ
  errorCorrectionRate : ℚ
  detectInvertedMarker : Bool
  deriving DecidableEq

/-- An opaque handle to a predefined marker dictionary of the library. -/
structure Dictionary where
  tag : Nat
  deriving DecidableEq

/-- Library enumeration value selecting the 7x7, 50-symbol vocabulary. -/
def DICT_7X7_50 : Nat := 12

/-- The library call returning a predefined dictionary handle. -/
def getPredefinedDictionary (t : Nat) : Dictionary := ⟨t⟩

/-- The assignments `setup_detector` performs on the parameter object `p0`
returned by `DetectorParameters_create()`, given the selected preset `cfg`. -/
def apply_configuration (p0 : DetectorParameters) (cfg : Config) :
    DetectorParameters :=
  { p0 with
    adaptiveThreshConstant := (cfg.adaptive_thresh_constant : ℚ)
    cornerRefinementMaxIterations := cfg.corner_refinement_max_iterations
    cornerRefinementMethod := CornerRefineMethod.subpix
    minMarkerPerimeterRate := 0.01
    maxMarkerPerimeterRate := 4.0
    polygonalApproxAccuracyRate := 0.03
    minCornerDistanceRate := 0.03
    cornerRefinementWinSize := 5
    cornerRefinementMinAccuracy := 0.01
    errorCorrectionRate := 0.6
    detectInvertedMarker := true }

/-- An image object: pixel payload `data` plus an object address `addr`, so
that sharing between the arrays the script manipulates is expressible
(`copy()` and the library filters allocate fresh arrays). -/
structure Img (D : Type) where
  addr : Nat
  data : D
  deriving DecidableEq

/-- Result of one `cv2.aruco.detectMarkers` call: the tuple of corner arrays
and the id array (`none` when no markers were found). The library returns
`corners` and `ids` as parallel collections: `ids.flatten()[i]` labels
`corners[i]`; `PassResult.wf` states that contract. -/
structure PassResult (C : Type) where
  corners : List C
  ids : Option (List Int)
  deriving DecidableEq

variable {D C : Type}

/-- Library contract: the corner and id collections of a detection result are
parallel (equal length). -/
def PassResult.wf (p : PassResult C) : Prop :=
  ∀ l, p.ids = some l → p.corners.length = l.length

/-- The (corner, id) detections one pass feeds to the merge loop of
`detect_markers`: nothing when `ids` is `None`, otherwise `corners[i]` paired
with `ids.flatten()[i]`. -/
def PassResult.pairs (p : PassResult C) : List (C × Int) :=
  match p.ids with
  | none => []
  | some l => p.corners.zip l

/-- The opaque OpenCV entry points the script calls, the addresses of the
fresh arrays those calls allocate, and the library's default parameter object
as produced by `DetectorParameters_create()`. -/
structure CVEnv (D C : Type) where
  createCLAHE : ℚ → Nat × Nat → D → D
  bilateralFilter : D → Nat → Nat → Nat → D
  threshold : D → ℚ → ℚ → Nat → ℚ × D
  detectMarkersLib : Img D → Dictionary → DetectorParameters → PassResult C
  defaultParams : DetectorParameters
  a1 : Nat
  a2 : Nat
  a3 : Nat
  aOtsu : Nat

/-- Library constant `cv2.THRESH_BINARY`. -/
def THRESH_BINARY : Nat := 0

/-- Library constant `cv2.THRESH_OTSU`. -/
def THRESH_OTSU : Nat := 8

/-- `setup_detector(config_name)`: look the preset up in `configs`, build the
7x7-50 dictionary and a parameter object from the library defaults with the
configured fields assigned. `none` models the `KeyError` of an unknown name. -/
def setup_detector (p0 : DetectorParameters) (config_name : String) :
    Option (Dictionary × DetectorParameters × Config) :=
  match configs config_name with
  | none => none
  | some cfg =>
    some (getPredefinedDictionary DICT_7X7_50, apply_configuration p0 cfg, cfg)

/-- `preprocess_image(gray, config)`: `processed = gray.copy()` (fresh address
`a1`), then CLAHE with clip limit 2.0 and tile grid 8x8 when `use_clahe`
(fresh address `a2`), then `bilateralFilter(processed, 5, 50, 50)` when
`use_bilateral` (fresh address `a3`). -/
def preprocess_image (env : CVEnv D C) (gray : Img D) (config : Config) :
    Img D :=
  let processed : Img D := ⟨env.a1, gray.data⟩
  let processed : Img D :=
    if config.use_clahe then ⟨env.a2, env.createCLAHE 2 (8, 8) processed.data⟩
    else processed
  let processed : Img D :=
    if config.use_bilateral then
      ⟨env.a3, env.bilateralFilter processed.data 5 50 50⟩
    else processed
  processed

/-- The accumulator of the multi-threshold merge in `detect_markers`:
`all_corners`, `all_ids`, and `seen_ids` (the Python set is modelled as the
list of its elements; only membership is ever queried). -/
structure MergeState (C : Type) where
  all_corners : List C
  all_ids : List Int
  seen_ids : List Int

/-- One pass of the merge loop of `detect_markers`: walk the (corner, id)
detections in order, appending each detection whose id has not been seen and
recording its id as seen. -/
def mergeLoop : List (C × Int) → MergeState C → MergeState C
  | [], s => s
  | (c, m) :: rest, s =>
    if m ∈ s.seen_ids then mergeLoop rest s
    else mergeLoop rest ⟨s.all_corners ++ [c], s.all_ids ++ [m], m :: s.seen_ids⟩

/-- The adaptive pass: the library detector applied to the preprocessed image
as-is (the library thresholds adaptively internally). -/
def adaptivePassResult (env : CVEnv D C) (gray : Img D) (dictionary : Dictionary)
    (parameters : DetectorParameters) (config : Config) : PassResult C :=
  env.detectMarkersLib (preprocess_image env gray config) dictionary parameters

/-- The Otsu-binarized image: `cv2.threshold(processed, 0, 255,
cv2.THRESH_BINARY + cv2.THRESH_OTSU)[1]`, a fresh array at `aOtsu`. -/
def otsuImage (env : CVEnv D C) (gray : Img D) (config : Config) : Img D :=
  ⟨env.aOtsu,
   (env.threshold (preprocess_image env gray config).data 0 255
     (THRESH_BINARY + THRESH_OTSU)).2⟩

/-- The Otsu pass: the library detector applied to the Otsu-binarized image. -/
def otsuPassResult (env : CVEnv D C) (gray : Img D) (dictionary : Dictionary)
    (parameters : DetectorParameters) (config : Config) : PassResult C :=
  env.detectMarkersLib (otsuImage env gray config) dictionary parameters

/-- `detect_markers(gray, dictionary, parameters, config)`: preprocess, then
either the two-pass merge (adaptive pass first, Otsu pass second, ids
deduplicated by `seen_ids`) when `use_multi_threshold`, or the single library
call's `(corners, ids)` directly. The merged ids are returned flattened (the
source reshapes them to a column array). -/
def detect_markers (env : CVEnv D C) (gray : Img D) (dictionary : Dictionary)
    (parameters : DetectorParameters) (config : Config) :
    List C × Option (List Int) :=
  if config.use_multi_threshold then
    let s1 := mergeLoop
      (adaptivePassResult env gray dictionary parameters config).pairs
      ⟨[], [], []⟩
    let s2 := mergeLoop
      (otsuPassResult env gray dictionary parameters config).pairs s1
    if 0 < s2.all_ids.length then (s2.all_corners, some s2.all_ids)
    else ([], none)
  else
    ((adaptivePassResult env gray dictionary parameters config).corners,
     (adaptivePassResult env gray dictionary parameters config).ids)

/-- Modelled from the spec: when multi-pass merge is disabled, detection
output equals exactly the single underlying library call's output on the
preprocessed image (no filtering, no reordering). -/
def singlePassSpec (env : CVEnv D C) (gray : Img D) (dictionary : Dictionary)
    (parameters : DetectorParameters) (config : Config) :
    List C × Option (List Int) :=
  ((adaptivePassResult env gray dictionary parameters config).corners,
   (adaptivePassResult env gray dictionary parameters config).ids)

/-- First-occurrence deduplication of a (corner, id) list against a set of
already-seen ids: the specification-side description of what one `mergeLoop`
pass appends. -/
def dedupPairs (seen : List Int) : List (C × Int) → List (C × Int)
  | [] => []
  | (c, m) :: rest =>
    if m ∈ seen then dedupPairs seen rest
    else (c, m) :: dedupPairs (m :: seen) rest

/-- The corner paired with the first occurrence of id `m` in a detection
list. -/
def lookupId (m : Int) : List (C × Int) → Option C
  | [] => none
  | (c, k) :: rest => if k = m then some c else lookupId m rest

/-- Wall-clock state of the benchmark: current time (seconds) and the index
of the next detection call. Detection calls are the only statements that
take time in this model. -/
structure Clock where
  now : ℚ
  idx : Nat

/-- One detection call as seen by the clock: it takes `dur idx` seconds,
where `idx` counts the calls made so far in this `test_configuration` run. -/
def benchCall (dur : Nat → ℚ) (c : Clock) : Clock :=
  ⟨c.now + dur c.idx, c.idx + 1⟩

/-- `for _ in range(n): detect_markers(...)` as a clock transformer. -/
def benchLoop (dur : Nat → ℚ) : Nat → Clock → Clock
  | 0, c => c
  | n + 1, c => benchLoop dur n (benchCall dur c)

/-- Sum of the durations of `n` consecutive calls starting at call index
`i`. -/
def sumDur (dur : Nat → ℚ) : Nat → Nat → ℚ
  | _, 0 => 0
  | i, n + 1 => dur i + sumDur dur (i + 1) n

/-- The record `test_configuration` returns. -/
structure BenchResult where
  config : String
  num_markers : Nat
  time_ms : ℚ
  fps : ℚ
  deriving DecidableEq

/-- `test_configuration(frame, config_name)`: grayscale conversion, detector
setup, 3 warm-up detection calls, 10 timed detection calls, mean time in
milliseconds and FPS (0 when the elapsed mean is not positive). The detection
output is a pure function of the fixed inputs, so the corners and ids bound
on the last loop iteration are `detect_markers` of the preprocessed frame;
`none` models the `KeyError` of an unknown preset name propagating. -/
def test_configuration (env : CVEnv D C) (cvtColor : Img D → Img D)
    (dur : Nat → ℚ) (frame : Img D) (t0 : ℚ) (config_name : String) :
    Option BenchResult :=
  let gray := cvtColor frame
  match setup_detector env.defaultParams config_name with
  | none => none
  | some (dictionary, parameters, cfg) =>
    let c0 : Clock := ⟨t0, 0⟩
    let c1 := benchLoop dur 3 c0
    let num_iterations : Nat := 10
    let start := c1.now
    let c2 := benchLoop dur num_iterations c1
    let ids := (detect_markers env gray dictionary parameters cfg).2
    let elapsed := (c2.now - start) / (num_iterations : ℚ) * 1000
    let num_detected := match ids with
      | some l => l.length
      | none => 0
    some { config := config_name, num_markers := num_detected,
           time_ms := elapsed,
           fps := if 0 < elapsed then 1000 / elapsed else 0 }

/-- Reported mean time of a benchmark run (0 when the run failed). -/
def timeOf (r : Option BenchResult) : ℚ :=
  match r with
  | some b => b.time_ms
  | none => 0

/-- Reported FPS of a benchmark run (0 when the run failed). -/
def fpsOf (r : Option BenchResult) : ℚ :=
  match r with
  | some b => b.fps
  | none => 0

/-- Reported marker count of a benchmark run (0 when the run failed). -/
def markersOf (r : Option BenchResult) : Nat :=
  match r with
  | some b => b.num_markers
  | none => 0

/-- One loop iteration of the improvements report in `main`: the time
overhead of `r` versus the original time, and the overhead as a percentage of
the original time. The percentage divides by `original_time` with no guard;
`none` models the `ZeroDivisionError` raised when it is zero. -/
def improvement_row (original_time : ℚ) (r : BenchResult) : Option (ℚ × ℚ) :=
  let time_overhead := r.time_ms - original_time
  if original_time = 0 then none
  else some (time_overhead, time_overhead / original_time * 100)

/-- The `for result in results[1:]` loop of the improvements report; a raised
`ZeroDivisionError` aborts the whole loop (`none`). -/
def improvementLoop (original_time : ℚ) :
    List BenchResult → Option (List (ℚ × ℚ))
  | [] => some []
  | r :: rest =>
    match improvement_row original_time r with
    | none => none
    | some row =>
      match improvementLoop original_time rest with
      | none => none
      | some rows => some (row :: rows)

/-- The improvements report of `main`: rows for each result after the first,
relative to `results[0]`; `none` models an uncaught exception (the
`ZeroDivisionError` of a zero original time, or the `IndexError` of an empty
result list). -/
def improvement_rows (results : List BenchResult) :
    Option (List (ℚ × ℚ)) :=
  match results with
  | [] => none
  | r0 :: rest => improvementLoop r0.time_ms rest

/-- What the frame-acquisition phase of `main` does before any benchmark
runs. -/
inductive MainOutcome (F : Type) where
  | proceed (frame : F) (synthetic : Bool)
  | earlyReturn
  deriving DecidableEq

/-- The camera handling at the top of `main`: if the capture device does not
open, substitute the synthetic noise frame and proceed; if it opens but
`cap.read()` reports failure, print an error and return before any benchmark;
otherwise proceed with the camera frame. -/
def acquire_frame {F : Type} (isOpened : Bool) (readRet : Bool)
    (camFrame : F) (noiseFrame : F) : MainOutcome F :=
  if isOpened = false then MainOutcome.proceed noiseFrame true
  else if readRet = false then MainOutcome.earlyReturn
  else MainOutcome.proceed camFrame false

/-- A `DeclareLaunchArgument` action. -/
structure LaunchArgDecl where
  name : String
  default_value : String
  description : String
  deriving DecidableEq

/-- A `Node` action: package, executable, node name, parameter sources
(resolved file paths), output. -/
structure NodeAction where
  package : String
  executable : String
  node_name : String
  parameters : List String
  output : String
  deriving DecidableEq

/-- The launch description: declared arguments and started nodes, in order. -/
structure LaunchDescr where
  args : List LaunchArgDecl
  nodes : List NodeAction
  deriving DecidableEq

/-- `generate_launch_description()` of `aruco_optimized.launch.py`. `share`
models `FindPackageShare` (package name to share directory); `vals` models
the launch-time values of the declared arguments (`LaunchConfiguration`);
`PathJoinSubstitution` joins with slashes. -/
def generate_launch_description (share : String → String)
    (vals : String → String) : LaunchDescr :=
  let camera_config_arg : LaunchArgDecl :=
    ⟨"camera_config", "camera_c920.yaml",
     "Camera config file (camera_c920.yaml, camera_c505.yaml, or camera_720p.yaml)"⟩
  let device_arg : LaunchArgDecl :=
    ⟨"device", "/dev/video0", "Camera device path"⟩
  let config_file := share "aruco_py" ++ "/config/" ++ vals "camera_config"
  let camera_node : NodeAction :=
    ⟨"v4l2_camera", "v4l2_camera_node", "camera", [config_file], "screen"⟩
  let aruco_node : NodeAction :=
    ⟨"aruco_py", "aruco_node", "aruco_node", [], "screen"⟩
  ⟨[camera_config_arg, device_arg], [camera_node, aruco_node]⟩

/-! Concrete instances used to exercise the theorems on closed inputs. -/

/-- The three presets, named (identical to the entries of `configs`). -/
def cfgOriginal : Config := ⟨false, false, false, 7, 30⟩

/-- The optimized preset. -/
def cfgOptimized : Config := ⟨true, false, true, 5, 60⟩

/-- The maximum preset. -/
def cfgMaximum : Config := ⟨true, true, true, 5, 80⟩

/-- A placeholder for the library's default parameter object. -/
def zeroParams : DetectorParameters :=
  ⟨0, 0, CornerRefineMethod.noRefine, 0, 0, 0, 0, 0, 0, 0, false⟩

/-- A concrete environment whose detector always reports marker id 5. -/
def envU : CVEnv Unit Unit :=
  { createCLAHE := fun _ _ d => d
    bilateralFilter := fun d _ _ _ => d
    threshold := fun d _ _ _ => (0, d)
    detectMarkersLib := fun _ _ _ => ⟨[()], some [5]⟩
    defaultParams := zeroParams
    a1 := 1
    a2 := 2
    a3 := 3
    aOtsu := 4 }

/-- A concrete environment whose detector never finds a marker. -/
def envNone : CVEnv Unit Unit :=
  { envU with detectMarkersLib := fun _ _ _ => ⟨[], none⟩ }

/-- A concrete environment over numeric pixel data. -/
def envN : CVEnv Nat Unit :=
  { createCLAHE := fun _ _ d => d + 1
    bilateralFilter := fun d _ _ _ => d * 2
    threshold := fun d _ _ _ => (0, 255 - d)
    detectMarkersLib := fun img _ _ =>
      if img.data % 2 = 0 then ⟨[()], some [7]⟩ else ⟨[], none⟩
    defaultParams := zeroParams
    a1 := 1
    a2 := 2
    a3 := 3
    aOtsu := 4 }

/-- A concrete frame. -/
def imgU : Img Unit := ⟨0, ()⟩

/-- A concrete share-directory resolver. -/
def shareU : String → String := fun p => "/opt/ros/share/" ++ p

/-- Launch-argument values selecting device `/dev/video1`. -/
def valsA : String → String :=
  fun n => if n = "device" then "/dev/video1" else "camera_c920.yaml"

/-- Launch-argument values selecting device `/dev/video2`. -/
def valsB : String → String :=
  fun n => if n = "device" then "/dev/video2" else "camera_c920.yaml"

/-! Lemmas about the merge loop and its deduplication behaviour. -/

theorem dedupPairs_cons_of_mem (seen : List Int) (c : C) (m : Int)
    (rest : List (C × Int)) (h : m ∈ seen) :
    dedupPairs seen ((c, m) :: rest) = dedupPairs seen rest := by
  simp [dedupPairs, h]

theorem dedupPairs_cons_of_not_mem (seen : List Int) (c : C) (m : Int)
    (rest : List (C × Int)) (h : m ∉ seen) :
    dedupPairs seen ((c, m) :: rest) = (c, m) :: dedupPairs (m :: seen) rest := by
  simp [dedupPairs, h]

theorem mergeLoop_cons_of_mem (s : MergeState C) (c : C) (m : Int)
    (rest : List (C × Int)) (h : m ∈ s.seen_ids) :
    mergeLoop ((c, m) :: rest) s = mergeLoop rest s := by
  simp [mergeLoop, h]

theorem mergeLoop_cons_of_not_mem (s : MergeState C) (c : C) (m : Int)
    (rest : List (C × Int)) (h : m ∉ s.seen_ids) :
    mergeLoop ((c, m) :: rest) s =
      mergeLoop rest ⟨s.all_corners ++ [c], s.all_ids ++ [m], m :: s.seen_ids⟩ := by
  simp [mergeLoop, h]

/-- One merge pass appends exactly the first-occurrence deduplication of its
input, and afterwards an id is seen exactly when it was seen before or occurs
in the input. -/
theorem mergeLoop_spec : ∀ (l : List (C × Int)) (s : MergeState C),
    (mergeLoop l s).all_corners =
      s.all_corners ++ (dedupPairs s.seen_ids l).map Prod.fst ∧
    (mergeLoop l s).all_ids =
      s.all_ids ++ (dedupPairs s.seen_ids l).map Prod.snd ∧
    ∀ x : Int,
      x ∈ (mergeLoop l s).seen_ids ↔ x ∈ s.seen_ids ∨ x ∈ l.map Prod.snd
  | [], _ => by simp [mergeLoop, dedupPairs]
  | (c, m) :: rest, s => by
    by_cases h : m ∈ s.seen_ids
    · obtain ⟨h1, h2, h3⟩ := mergeLoop_spec rest s
      rw [mergeLoop_cons_of_mem s c m rest h, dedupPairs_cons_of_mem _ _ _ _ h]
      refine ⟨h1, h2, ?_⟩
      intro x
      rw [h3 x]
      simp only [List.map_cons, List.mem_cons]
      constructor
      · tauto
      · rintro (hx | hx | hx)
        · exact Or.inl hx
        · exact Or.inl (hx ▸ h)
        · exact Or.inr hx
    · obtain ⟨h1, h2, h3⟩ :=
        mergeLoop_spec rest
          ⟨s.all_corners ++ [c], s.all_ids ++ [m], m :: s.seen_ids⟩
      rw [mergeLoop_cons_of_not_mem s c m rest h,
        dedupPairs_cons_of_not_mem _ _ _ _ h]
      refine ⟨by rw [h1]; simp, by rw [h2]; simp, ?_⟩
      intro x
      rw [h3 x]
      simp only [List.map_cons, List.mem_cons]
      tauto

/-- The ids surviving one deduplication pass are pairwise distinct and none of
them was already seen. -/
theorem dedupPairs_snd_nodup : ∀ (seen : List Int) (l : List (C × Int)),
    ((dedupPairs seen l).map Prod.snd).Nodup ∧
    ∀ x ∈ (dedupPairs seen l).map Prod.snd, x ∉ seen
  | _, [] => by simp [dedupPairs]
  | seen, (c, m) :: rest => by
    by_cases h : m ∈ seen
    · rw [dedupPairs_cons_of_mem _ _ _ _ h]
      exact dedupPairs_snd_nodup seen rest
    · obtain ⟨h1, h2⟩ := dedupPairs_snd_nodup (m :: seen) rest
      rw [dedupPairs_cons_of_not_mem _ _ _ _ h]
      simp only [List.map_cons, List.nodup_cons]
      refine ⟨⟨fun hm => (h2 m hm) (List.mem_cons_self m seen), h1⟩, ?_⟩
      intro x hx
      rcases List.mem_cons.mp hx with hx | hx
      · exact hx ▸ h
      · exact fun hxseen => (h2 x hx) (List.mem_cons_of_mem m hxseen)

/-- Deduplication only keeps ids that occur in the input. -/
theorem dedupPairs_snd_subset : ∀ (seen : List Int) (l : List (C × Int))
    (x : Int), x ∈ (dedupPairs seen l).map Prod.snd → x ∈ l.map Prod.snd
  | _, [], _ => by simp [dedupPairs]
  | seen, (c, m) :: rest, x => by
    by_cases h : m ∈ seen
    · rw [dedupPairs_cons_of_mem _ _ _ _ h]
      intro hx
      exact List.mem_cons_of_mem _ (dedupPairs_snd_subset seen rest x hx)
    · rw [dedupPairs_cons_of_not_mem _ _ _ _ h]
      simp only [List.map_cons, List.mem_cons]
      rintro (hx | hx)
      · exact Or.inl hx
      · exact Or.inr (dedupPairs_snd_subset (m :: seen) rest x hx)

/-- An unseen id occurring in the input survives deduplication. -/
theorem mem_dedupPairs_snd : ∀ (seen : List Int) (l : List (C × Int))
    (m : Int), m ∉ seen → m ∈ l.map Prod.snd →
    m ∈ (dedupPairs seen l).map Prod.snd
  | _, [], _ => by simp
  | seen, (c, k) :: rest, m => by
    intro hm hmem
    rw [List.map_cons] at hmem
    by_cases h : k ∈ seen
    · rw [dedupPairs_cons_of_mem _ _ _ _ h]
      rcases List.mem_cons.mp hmem with hx | hx
      · exact absurd (hx ▸ h) hm
      · exact mem_dedupPairs_snd seen rest m hm hx
    · rw [dedupPairs_cons_of_not_mem _ _ _ _ h]
      simp only [List.map_cons, List.mem_cons]
      rcases List.mem_cons.mp hmem with hx | hx
      · exact Or.inl hx
      · by_cases hmk : m = k
        · exact Or.inl hmk
        · refine Or.inr (mem_dedupPairs_snd (k :: seen) rest m ?_ hx)
          intro hmem2
          rcases List.mem_cons.mp hmem2 with he | he
          · exact hmk he
          · exact hm he

/-- Looking an id up in an appended list stays in the left part when the id
occurs there. -/
theorem lookupId_append_of_mem : ∀ (xs ys : List (C × Int)) (m : Int),
    m ∈ xs.map Prod.snd → lookupId m (xs ++ ys) = lookupId m xs
  | [], _, _ => by simp
  | (c, k) :: rest, ys, m => by
    intro hm
    rw [List.map_cons] at hm
    by_cases h : k = m
    · simp [lookupId, h]
    · simp only [List.cons_append, lookupId, h, if_false]
      refine lookupId_append_of_mem rest ys m ?_
      rcases List.mem_cons.mp hm with hx | hx
      · exact absurd hx.symm h
      · exact hx

/-- Deduplication keeps the first occurrence: looking up an unseen id in the
deduplicated list gives the same corner as in the raw list. -/
theorem lookupId_dedupPairs : ∀ (seen : List Int) (l : List (C × Int))
    (m : Int), m ∉ seen → lookupId m (dedupPairs seen l) = lookupId m l
  | _, [], _ => by simp [dedupPairs]
  | seen, (c, k) :: rest, m => by
    intro hm
    by_cases h : k ∈ seen
    · rw [dedupPairs_cons_of_mem _ _ _ _ h]
      have hkm : ¬k = m := fun he => hm (he ▸ h)
      rw [lookupId_dedupPairs seen rest m hm]
      simp [lookupId, hkm]
    · rw [dedupPairs_cons_of_not_mem _ _ _ _ h]
      by_cases hkm : k = m
      · simp [lookupId, hkm]
      · simp only [lookupId, hkm, if_false]
        refine lookupId_dedupPairs (k :: seen) rest m ?_
        intro hmem2
        rcases List.mem_cons.mp hmem2 with he | he
        · exact hkm he.symm
        · exact hm he

/-- Zipping the unzipped concatenation of two pair lists gives the
concatenation back. -/
theorem zip_map_append (x y : List (C × Int)) :
    (x.map Prod.fst ++ y.map Prod.fst).zip (x.map Prod.snd ++ y.map Prod.snd) =
      x ++ y := by
  rw [List.zip_append (by simp), List.zip_map', List.zip_map']
  simp

/-! Lemmas about the benchmark clock. -/

theorem benchLoop_now (dur : Nat → ℚ) : ∀ (n : Nat) (c : Clock),
    (benchLoop dur n c).now = c.now + sumDur dur c.idx n
  | 0, c => by simp [benchLoop, sumDur]
  | n + 1, c => by
    rw [show benchLoop dur (n + 1) c = benchLoop dur n (benchCall dur c) from rfl,
      benchLoop_now dur n (benchCall dur c)]
    simp only [benchCall, sumDur]
    ring

theorem benchLoop_idx (dur : Nat → ℚ) : ∀ (n : Nat) (c : Clock),
    (benchLoop dur n c).idx = c.idx + n
  | 0, c => by simp [benchLoop]
  | n + 1, c => by
    rw [show benchLoop dur (n + 1) c = benchLoop dur n (benchCall dur c) from rfl,
      benchLoop_idx dur n (benchCall dur c)]
    simp only [benchCall]
    omega

theorem sumDur_3_10 (dur : Nat → ℚ) :
    sumDur dur 3 10 = dur 3 + dur 4 + dur 5 + dur 6 + dur 7 + dur 8 + dur 9 +
      dur 10 + dur 11 + dur 12 := by
  show dur 3 + (dur 4 + (dur 5 + (dur 6 + (dur 7 + (dur 8 + (dur 9 +
    (dur 10 + (dur 11 + (dur 12 + 0))))))))) = _
  ring

theorem sumDur_zero (dur : Nat → ℚ) (h : ∀ k, dur k = 0) :
    ∀ (i n : Nat), sumDur dur i n = 0
  | _, 0 => rfl
  | i, n + 1 => by
    rw [show sumDur dur i (n + 1) = dur i + sumDur dur (i + 1) n from rfl,
      h i, sumDur_zero dur h (i + 1) n]
    ring

/-- What one `test_configuration` run returns, given that the preset lookup
succeeds: the marker count of the final detection output, the mean of the ten
timed call durations (calls 3 through 12, the three warm-up calls excluded)
in milliseconds, and the guarded FPS. -/
theorem test_configuration_run (env : CVEnv D C) (cvtColor : Img D → Img D)
    (dur : Nat → ℚ) (frame : Img D) (t0 : ℚ) (name : String)
    (d : Dictionary) (ps : DetectorParameters) (cfg : Config)
    (hsetup : setup_detector env.defaultParams name = some (d, ps, cfg)) :
    test_configuration env cvtColor dur frame t0 name =
      some { config := name,
             num_markers :=
               (match (detect_markers env (cvtColor frame) d ps cfg).2 with
                | some l => l.length
                | none => 0),
             time_ms := sumDur dur 3 10 / 10 * 1000,
             fps := if 0 < sumDur dur 3 10 / 10 * 1000 then
                 1000 / (sumDur dur 3 10 / 10 * 1000)
               else 0 } := by
  have key : ((benchLoop dur 10 (benchLoop dur 3 ⟨t0, 0⟩)).now -
      (benchLoop dur 3 ⟨t0, 0⟩).now) / ((10 : Nat) : ℚ) * 1000 =
      sumDur dur 3 10 / 10 * 1000 := by
    rw [benchLoop_now dur 10 (benchLoop dur 3 ⟨t0, 0⟩), benchLoop_idx dur 3 ⟨t0, 0⟩]
    norm_num
  rw [test_configuration, hsetup]
  simp only []
  rw [key]

/-- With multi-threshold enabled, `detect_markers` is the two-pass merge. -/
theorem detect_markers_multi_cases (env : CVEnv D C) (gray : Img D)
    (dictionary : Dictionary) (parameters : DetectorParameters)
    (config : Config) (hmulti : config.use_multi_threshold = true) :
    detect_markers env gray dictionary parameters config =
      (if 0 < (mergeLoop (otsuPassResult env gray dictionary parameters config).pairs
          (mergeLoop (adaptivePassResult env gray dictionary parameters config).pairs
            ⟨[], [], []⟩)).all_ids.length then
        ((mergeLoop (otsuPassResult env gray dictionary parameters config).pairs
          (mergeLoop (adaptivePassResult env gray dictionary parameters config).pairs
            ⟨[], [], []⟩)).all_corners,
         some (mergeLoop (otsuPassResult env gray dictionary parameters config).pairs
          (mergeLoop (adaptivePassResult env gray dictionary parameters config).pairs
            ⟨[], [], []⟩)).all_ids)
      else ([], none)) := by
  rw [detect_markers, if_pos hmulti]

/-! The claims. -/

/-- C3: when `use_multi_threshold` is disabled, `detect_markers` returns
exactly the `(corners, ids)` output of the single underlying library
detection call on the preprocessed image, with no filtering and no
reordering. -/
theorem detect_markers_single_pass_eq (env : CVEnv D C) (gray : Img D)
    (dictionary : Dictionary) (parameters : DetectorParameters)
    (config : Config) (h : config.use_multi_threshold = false) :
    detect_markers env gray dictionary parameters config =
      singlePassSpec env gray dictionary parameters config := by
  rw [detect_markers, if_neg (by simp [h]), singlePassSpec]

theorem detect_markers_single_pass_eq_witness :
    detect_markers envU imgU (getPredefinedDictionary DICT_7X7_50) zeroParams
        cfgOriginal =
      singlePassSpec envU imgU (getPredefinedDictionary DICT_7X7_50) zeroParams
        cfgOriginal :=
  detect_markers_single_pass_eq envU imgU (getPredefinedDictionary DICT_7X7_50)
    zeroParams cfgOriginal rfl

/-- C6: for every preset name among the three defined presets,
`setup_detector` produces a parameter object whose fixed fields equal the
specified constants regardless of preset name, while the adaptive-threshold
constant and the corner-refinement max iterations are taken from the selected
preset. -/
theorem setup_detector_fixed_fields (p0 : DetectorParameters) (name : String)
    (cfg : Config)
    (hname : name = "original" ∨ name = "optimized" ∨ name = "maximum")
    (hcfg : configs name = some cfg) :
    ∀ d ps c, setup_detector p0 name = some (d, ps, c) →
      c = cfg ∧
      d = getPredefinedDictionary DICT_7X7_50 ∧
      ps.cornerRefinementMethod = CornerRefineMethod.subpix ∧
      ps.minMarkerPerimeterRate = 0.01 ∧
      ps.maxMarkerPerimeterRate = 4.0 ∧
      ps.polygonalApproxAccuracyRate = 0.03 ∧
      ps.minCornerDistanceRate = 0.03 ∧
      ps.cornerRefinementWinSize = 5 ∧
      ps.cornerRefinementMinAccuracy = 0.01 ∧
      ps.errorCorrectionRate = 0.6 ∧
      ps.detectInvertedMarker = true ∧
      ps.adaptiveThreshConstant = (cfg.adaptive_thresh_constant : ℚ) ∧
      ps.cornerRefinementMaxIterations = cfg.corner_refinement_max_iterations := by
  intro d ps c hsetup
  rw [setup_detector, hcfg] at hsetup
  obtain ⟨hd, hps, hc⟩ : getPredefinedDictionary DICT_7X7_50 = d ∧
      apply_configuration p0 cfg = ps ∧ cfg = c := by
    simpa using hsetup
  subst hd
  subst hps
  subst hc
  exact ⟨rfl, rfl, rfl, rfl, rfl, rfl, rfl, rfl, rfl, rfl, rfl, rfl, rfl⟩

theorem setup_detector_fixed_fields_witness :
    cfgOriginal = cfgOriginal ∧
    getPredefinedDictionary DICT_7X7_50 = getPredefinedDictionary DICT_7X7_50 ∧
    (apply_configuration zeroParams cfgOriginal).cornerRefinementMethod =
      CornerRefineMethod.subpix ∧
    (apply_configuration zeroParams cfgOriginal).minMarkerPerimeterRate = 0.01 ∧
    (apply_configuration zeroParams cfgOriginal).maxMarkerPerimeterRate = 4.0 ∧
    (apply_configuration zeroParams cfgOriginal).polygonalApproxAccuracyRate = 0.03 ∧
    (apply_configuration zeroParams cfgOriginal).minCornerDistanceRate = 0.03 ∧
    (apply_configuration zeroParams cfgOriginal).cornerRefinementWinSize = 5 ∧
    (apply_configuration zeroParams cfgOriginal).cornerRefinementMinAccuracy = 0.01 ∧
    (apply_configuration zeroParams cfgOriginal).errorCorrectionRate = 0.6 ∧
    (apply_configuration zeroParams cfgOriginal).detectInvertedMarker = true ∧
    (apply_configuration zeroParams cfgOriginal).adaptiveThreshConstant =
      (cfgOriginal.adaptive_thresh_constant : ℚ) ∧
    (apply_configuration zeroParams cfgOriginal).cornerRefinementMaxIterations =
      cfgOriginal.corner_refinement_max_iterations :=
  setup_detector_fixed_fields zeroParams "original" cfgOriginal (Or.inl rfl) rfl
    (getPredefinedDictionary DICT_7X7_50) (apply_configuration zeroParams cfgOriginal)
    cfgOriginal rfl

/-- C7: in `main`, a camera that cannot be opened is replaced by the synthetic
noise frame and the run proceeds; a camera that opens but whose frame cannot
be read makes the program return early; a successful read proceeds with the
camera frame. These three cases are exhaustive over the two camera status
flags, so they are the only camera conditions handled. -/
theorem main_camera_handling {F : Type} (camFrame noiseFrame : F)
    (readRet : Bool) :
    acquire_frame false readRet camFrame noiseFrame =
      MainOutcome.proceed noiseFrame true ∧
    acquire_frame true false camFrame noiseFrame = MainOutcome.earlyReturn ∧
    acquire_frame true true camFrame noiseFrame =
      MainOutcome.proceed camFrame false :=
  ⟨rfl, rfl, rfl⟩

/-- C8: `preprocess_image` applies CLAHE (clip limit 2.0, tile 8x8) first when
enabled, then the bilateral filter (kernel 5, sigmas 50/50) when enabled, in
that order, and returns an image at a fresh address: never an alias of the
input, whose contents are untouched. -/
theorem preprocess_image_order_and_fresh (env : CVEnv D C) (gray : Img D)
    (config : Config) (h1 : env.a1 ≠ gray.addr) (h2 : env.a2 ≠ gray.addr)
    (h3 : env.a3 ≠ gray.addr) :
    (preprocess_image env gray config).addr ≠ gray.addr ∧
    (preprocess_image env gray config).data =
      (fun pd => if config.use_bilateral then env.bilateralFilter pd 5 50 50
        else pd)
        ((fun pd => if config.use_clahe then env.createCLAHE 2 (8, 8) pd
          else pd) gray.data) := by
  cases hc : config.use_clahe <;> cases hb : config.use_bilateral <;>
    simp [preprocess_image, hc, hb, h1, h2, h3]

theorem preprocess_image_order_and_fresh_witness :
    (preprocess_image envN ⟨0, 10⟩ cfgMaximum).addr ≠ (⟨0, 10⟩ : Img Nat).addr ∧
    (preprocess_image envN ⟨0, 10⟩ cfgMaximum).data =
      (fun pd => if cfgMaximum.use_bilateral then envN.bilateralFilter pd 5 50 50
        else pd)
        ((fun pd => if cfgMaximum.use_clahe then envN.createCLAHE 2 (8, 8) pd
          else pd) (⟨0, 10⟩ : Img Nat).data) :=
  preprocess_image_order_and_fresh envN ⟨0, 10⟩ cfgMaximum (by decide)
    (by decide) (by decide)

/-- C10: the launch description declares the `device` argument with default
`/dev/video0` but never references its value: two launch invocations that
agree on `camera_config` and differ only in `device` produce identical
descriptions, the camera node's parameters are exactly the resolved
camera-config path, and the detector node receives no parameters. -/
theorem launch_device_arg_unused (share vals1 vals2 : String → String)
    (h : vals1 "camera_config" = vals2 "camera_config") :
    generate_launch_description share vals1 =
      generate_launch_description share vals2 ∧
    (generate_launch_description share vals1).nodes =
      [⟨"v4l2_camera", "v4l2_camera_node", "camera",
        [share "aruco_py" ++ "/config/" ++ vals1 "camera_config"], "screen"⟩,
       ⟨"aruco_py", "aruco_node", "aruco_node", [], "screen"⟩] ∧
    (⟨"device", "/dev/video0", "Camera device path"⟩ : LaunchArgDecl) ∈
      (generate_launch_description share vals1).args := by
  refine ⟨?_, rfl, by simp [generate_launch_description]⟩
  simp [generate_launch_description, h]

theorem launch_device_arg_unused_witness :
    generate_launch_description shareU valsA =
      generate_launch_description shareU valsB ∧
    (generate_launch_description shareU valsA).nodes =
      [⟨"v4l2_camera", "v4l2_camera_node", "camera",
        [shareU "aruco_py" ++ "/config/" ++ valsA "camera_config"], "screen"⟩,
       ⟨"aruco_py", "aruco_node", "aruco_node", [], "screen"⟩] ∧
    (⟨"device", "/dev/video0", "Camera device path"⟩ : LaunchArgDecl) ∈
      (generate_launch_description shareU valsA).args :=
  launch_device_arg_unused shareU valsA valsB rfl

/-- C1: in the multi-pass merge, when the same marker identifier is detected
by both the adaptive pass and the Otsu pass, the corner-set returned for that
identifier is the adaptive pass's corner-set: every second-pass detection
whose identifier was already seen in the first pass is discarded. -/
theorem detect_markers_adaptive_priority (env : CVEnv D C) (gray : Img D)
    (dictionary : Dictionary) (parameters : DetectorParameters)
    (config : Config) (m : Int) (cs : List C) (ids : List Int)
    (hmulti : config.use_multi_threshold = true)
    (hwf1 : (adaptivePassResult env gray dictionary parameters config).wf)
    (hwf2 : (otsuPassResult env gray dictionary parameters config).wf)
    (hm1 : m ∈ (adaptivePassResult env gray dictionary parameters
      config).pairs.map Prod.snd)
    (hm2 : m ∈ (otsuPassResult env gray dictionary parameters
      config).pairs.map Prod.snd)
    (hout : detect_markers env gray dictionary parameters config =
      (cs, some ids)) :
    lookupId m (cs.zip ids) =
      lookupId m (adaptivePassResult env gray dictionary parameters
        config).pairs := by
  rw [detect_markers_multi_cases env gray dictionary parameters config hmulti]
    at hout
  generalize hg1 : (adaptivePassResult env gray dictionary parameters
    config).pairs = P1 at hout hm1 ⊢
  generalize hg2 : (otsuPassResult env gray dictionary parameters
    config).pairs = P2 at hout hm2
  obtain ⟨hc1, hi1, hseen1⟩ := mergeLoop_spec P1 (⟨[], [], []⟩ : MergeState C)
  obtain ⟨hc2, hi2, hseen2⟩ := mergeLoop_spec P2 (mergeLoop P1 ⟨[], [], []⟩)
  by_cases hlen :
      0 < (mergeLoop P2 (mergeLoop P1 ⟨[], [], []⟩)).all_ids.length
  · rw [if_pos hlen] at hout
    have hcs : (mergeLoop P2 (mergeLoop P1 ⟨[], [], []⟩)).all_corners = cs :=
      congrArg Prod.fst hout
    have hids : (mergeLoop P2 (mergeLoop P1 ⟨[], [], []⟩)).all_ids = ids := by
      simpa using congrArg Prod.snd hout
    subst hcs
    subst hids
    rw [hc2, hi2, hc1, hi1]
    simp only [List.nil_append]
    rw [zip_map_append,
      lookupId_append_of_mem _ _ m (mem_dedupPairs_snd [] P1 m (by simp) hm1)]
    exact lookupId_dedupPairs [] P1 m (by simp)
  · rw [if_neg hlen] at hout
    have hbad : (none : Option (List Int)) = some ids := by
      simpa using congrArg Prod.snd hout
    simp at hbad

theorem detect_markers_adaptive_priority_witness :
    lookupId 5 (([()] : List Unit).zip [(5 : Int)]) =
      lookupId 5 (adaptivePassResult envU imgU
        (getPredefinedDictionary DICT_7X7_50) zeroParams cfgOptimized).pairs :=
  detect_markers_adaptive_priority envU imgU
    (getPredefinedDictionary DICT_7X7_50) zeroParams cfgOptimized 5 [()] [5]
    rfl
    (fun l hl => by injection hl with h; subst h; rfl)
    (fun l hl => by injection hl with h; subst h; rfl)
    (by simp [adaptivePassResult, PassResult.pairs, envU])
    (by simp [otsuPassResult, PassResult.pairs, envU])
    rfl

/-- C2: the identifier array returned by `detect_markers` with
`use_multi_threshold` enabled contains no duplicate identifiers. -/
theorem detect_markers_merge_nodup (env : CVEnv D C) (gray : Img D)
    (dictionary : Dictionary) (parameters : DetectorParameters)
    (config : Config) (cs : List C) (ids : List Int)
    (hmulti : config.use_multi_threshold = true)
    (hwf1 : (adaptivePassResult env gray dictionary parameters config).wf)
    (hwf2 : (otsuPassResult env gray dictionary parameters config).wf)
    (hout : detect_markers env gray dictionary parameters config =
      (cs, some ids)) :
    ids.Nodup := by
  rw [detect_markers_multi_cases env gray dictionary parameters config hmulti]
    at hout
  generalize hg1 : (adaptivePassResult env gray dictionary parameters
    config).pairs = P1 at hout
  generalize hg2 : (otsuPassResult env gray dictionary parameters
    config).pairs = P2 at hout
  obtain ⟨hc1, hi1, hseen1⟩ := mergeLoop_spec P1 (⟨[], [], []⟩ : MergeState C)
  obtain ⟨hc2, hi2, hseen2⟩ := mergeLoop_spec P2 (mergeLoop P1 ⟨[], [], []⟩)
  by_cases hlen :
      0 < (mergeLoop P2 (mergeLoop P1 ⟨[], [], []⟩)).all_ids.length
  · rw [if_pos hlen] at hout
    have hids : (mergeLoop P2 (mergeLoop P1 ⟨[], [], []⟩)).all_ids = ids := by
      simpa using congrArg Prod.snd hout
    rw [← hids, hi2, hi1]
    simp only [List.nil_append]
    refine List.Nodup.append (dedupPairs_snd_nodup [] P1).1
      (dedupPairs_snd_nodup _ P2).1 ?_
    intro x hx1 hx2
    have hxseen : x ∈ (mergeLoop P1 (⟨[], [], []⟩ : MergeState C)).seen_ids := by
      rw [hseen1 x]
      exact Or.inr (dedupPairs_snd_subset [] P1 x hx1)
    exact (dedupPairs_snd_nodup
      (mergeLoop P1 (⟨[], [], []⟩ : MergeState C)).seen_ids P2).2 x hx2 hxseen
  · rw [if_neg hlen] at hout
    have hbad : (none : Option (List Int)) = some ids := by
      simpa using congrArg Prod.snd hout
    simp at hbad

theorem detect_markers_merge_nodup_witness : ([(5 : Int)] : List Int).Nodup :=
  detect_markers_merge_nodup envU imgU (getPredefinedDictionary DICT_7X7_50)
    zeroParams cfgOptimized [()] [5] rfl
    (fun l hl => by injection hl with h; subst h; rfl)
    (fun l hl => by injection hl with h; subst h; rfl)
    rfl

/-- C4: `test_configuration` performs exactly 3 untimed warm-up detection
calls followed by exactly 10 timed calls: the reported `time_ms` is the mean
over the durations of calls 3 through 12 in milliseconds, independent of the
warm-up durations, and when every call takes a fixed `d` milliseconds the
reported mean equals `d` and the reported FPS equals `1000 / d`. -/
theorem test_configuration_timing (env : CVEnv D C) (cvtColor : Img D → Img D)
    (dur : Nat → ℚ) (frame : Img D) (t0 : ℚ) (name : String) (cfg : Config)
    (hcfg : configs name = some cfg) :
    timeOf (test_configuration env cvtColor dur frame t0 name) =
      (dur 3 + dur 4 + dur 5 + dur 6 + dur 7 + dur 8 + dur 9 + dur 10 +
        dur 11 + dur 12) / 10 * 1000 ∧
    ∀ d : ℚ, 0 < d → (∀ k, dur k = d / 1000) →
      timeOf (test_configuration env cvtColor dur frame t0 name) = d ∧
      fpsOf (test_configuration env cvtColor dur frame t0 name) = 1000 / d := by
  have hsetup : setup_detector env.defaultParams name =
      some (getPredefinedDictionary DICT_7X7_50,
        apply_configuration env.defaultParams cfg, cfg) := by
    rw [setup_detector, hcfg]
  have hrun := test_configuration_run env cvtColor dur frame t0 name _ _ _ hsetup
  have htime : timeOf (test_configuration env cvtColor dur frame t0 name) =
      sumDur dur 3 10 / 10 * 1000 := by
    rw [hrun]
    simp [timeOf]
  have hfps : fpsOf (test_configuration env cvtColor dur frame t0 name) =
      if 0 < sumDur dur 3 10 / 10 * 1000 then
        1000 / (sumDur dur 3 10 / 10 * 1000)
      else 0 := by
    rw [hrun]
    simp [fpsOf]
  constructor
  · rw [htime, sumDur_3_10]
  · intro d hd hdur
    have hsum : sumDur dur 3 10 = d / 100 := by
      rw [sumDur_3_10]
      simp only [hdur]
      ring
    have helapsed : sumDur dur 3 10 / 10 * 1000 = d := by
      rw [hsum]
      ring
    refine ⟨by rw [htime, helapsed], ?_⟩
    rw [hfps, helapsed, if_pos hd]

theorem test_configuration_timing_witness :
    timeOf (test_configuration envU (fun i => i) (fun _ => 1 / 1000) imgU 0
        "original") = 1 ∧
    fpsOf (test_configuration envU (fun i => i) (fun _ => 1 / 1000) imgU 0
        "original") = 1000 / 1 :=
  (test_configuration_timing envU (fun i => i) (fun _ => 1 / 1000) imgU 0
      "original" cfgOriginal rfl).2 1 (by norm_num) (fun _ => rfl)

/-- C5: in `test_configuration`, a `None` identifier result of the final
detection call reports 0 markers, and a measured mean time of 0 reports an
FPS of 0 instead of raising a division-by-zero. -/
theorem test_configuration_null_guards (env : CVEnv D C)
    (cvtColor : Img D → Img D) (dur : Nat → ℚ) (frame : Img D) (t0 : ℚ)
    (name : String) (d : Dictionary) (ps : DetectorParameters) (cfg : Config)
    (hsetup : setup_detector env.defaultParams name = some (d, ps, cfg))
    (hnull : (detect_markers env (cvtColor frame) d ps cfg).2 = none) :
    markersOf (test_configuration env cvtColor dur frame t0 name) = 0 ∧
    (timeOf (test_configuration env cvtColor dur frame t0 name) = 0 →
      fpsOf (test_configuration env cvtColor dur frame t0 name) = 0) := by
  have hrun := test_configuration_run env cvtColor dur frame t0 name d ps cfg
    hsetup
  constructor
  · rw [hrun]
    simp [markersOf, hnull]
  · intro ht
    rw [hrun] at ht ⊢
    simp only [timeOf] at ht
    simp only [fpsOf]
    rw [ht, if_neg (lt_irrefl 0)]

theorem test_configuration_null_guards_witness :
    markersOf (test_configuration envNone (fun i => i) (fun _ => 0) imgU 0
        "original") = 0 ∧
    (timeOf (test_configuration envNone (fun i => i) (fun _ => 0) imgU 0
        "original") = 0 →
      fpsOf (test_configuration envNone (fun i => i) (fun _ => 0) imgU 0
        "original") = 0) :=
  test_configuration_null_guards envNone (fun i => i) (fun _ => 0) imgU 0
    "original" (getPredefinedDictionary DICT_7X7_50)
    (apply_configuration zeroParams cfgOriginal) cfgOriginal rfl rfl

/-- C9: the improvement computation in `main` divides the time overhead by
the original preset's mean time with no zero guard: in a run where every
detection call takes zero time, the original preset reports `time_ms = 0`
with a guarded `fps = 0`, yet the improvements report raises a
division-by-zero error (modelled as `none`) instead of printing 0. -/
theorem improvements_division_by_zero (env : CVEnv D C)
    (cvtColor : Img D → Img D) (dur : Nat → ℚ) (frame : Img D)
    (t0 t1 t2 : ℚ) (r0 r1 r2 : BenchResult)
    (hdur : ∀ k, dur k = 0)
    (h0 : test_configuration env cvtColor dur frame t0 "original" = some r0)
    (h1 : test_configuration env cvtColor dur frame t1 "optimized" = some r1)
    (h2 : test_configuration env cvtColor dur frame t2 "maximum" = some r2) :
    r0.time_ms = 0 ∧ r0.fps = 0 ∧ improvement_rows [r0, r1, r2] = none := by
  have hsetup : setup_detector env.defaultParams "original" =
      some (getPredefinedDictionary DICT_7X7_50,
        apply_configuration env.defaultParams cfgOriginal, cfgOriginal) := rfl
  have hrun := test_configuration_run env cvtColor dur frame t0 "original"
    _ _ _ hsetup
  have hsum : sumDur dur 3 10 = 0 := sumDur_zero dur hdur 3 10
  have heq := Option.some.inj (h0.symm.trans hrun)
  have ht : r0.time_ms = sumDur dur 3 10 / 10 * 1000 := by rw [heq]
  have hf : r0.fps = if 0 < sumDur dur 3 10 / 10 * 1000 then
      1000 / (sumDur dur 3 10 / 10 * 1000) else 0 := by rw [heq]
  have ht0 : r0.time_ms = 0 := by
    rw [ht, hsum]
    ring
  have hf0 : r0.fps = 0 := by
    rw [hf, hsum]
    norm_num
  refine ⟨ht0, hf0, ?_⟩
  simp [improvement_rows, improvementLoop, improvement_row, ht0]

theorem test_configuration_zero_dur (env : CVEnv D C)
    (cvtColor : Img D → Img D) (frame : Img D) (t0 : ℚ) (name : String)
    (d : Dictionary) (ps : DetectorParameters) (cfg : Config)
    (hsetup : setup_detector env.defaultParams name = some (d, ps, cfg)) :
    test_configuration env cvtColor (fun _ => 0) frame t0 name =
      some { config := name,
             num_markers :=
               (match (detect_markers env (cvtColor frame) d ps cfg).2 with
                | some l => l.length
                | none => 0),
             time_ms := 0,
             fps := 0 } := by
  rw [test_configuration_run env cvtColor (fun _ => 0) frame t0 name d ps cfg
      hsetup,
    sumDur_zero (fun _ => (0 : ℚ)) (fun _ => rfl) 3 10]
  have e1 : (0 : ℚ) / 10 * 1000 = 0 := by norm_num
  rw [e1, if_neg (lt_irrefl (0 : ℚ))]

theorem improvements_division_by_zero_witness :
    (⟨"original", 1, 0, 0⟩ : BenchResult).time_ms = 0 ∧
    (⟨"original", 1, 0, 0⟩ : BenchResult).fps = 0 ∧
    improvement_rows [⟨"original", 1, 0, 0⟩, ⟨"optimized", 1, 0, 0⟩,
      ⟨"maximum", 1, 0, 0⟩] = none :=
  improvements_division_by_zero envU (fun i => i) (fun _ => 0) imgU 0 0 0
    ⟨"original", 1, 0, 0⟩ ⟨"optimized", 1, 0, 0⟩ ⟨"maximum", 1, 0, 0⟩
    (fun _ => rfl)
    (by
      rw [test_configuration_zero_dur envU (fun i => i) imgU 0 "original"
        (getPredefinedDictionary DICT_7X7_50)
        (apply_configuration zeroParams cfgOriginal) cfgOriginal rfl]
      rfl)
    (by
      rw [test_configuration_zero_dur envU (fun i => i) imgU 0 "optimized"
        (getPredefinedDictionary DICT_7X7_50)
        (apply_configuration zeroParams cfgOptimized) cfgOptimized rfl]
      rfl)
    (by
      rw [test_configuration_zero_dur envU (fun i => i) imgU 0 "maximum"
        (getPredefinedDictionary DICT_7X7_50)
        (apply_configuration zeroParams cfgMaximum) cfgMaximum rfl]
      rfl)

end Aruco
